import Mathlib

/-!
Shallow embedding of the BACKENDWELDIWIN message / SOS-alert backend.

Source files embedded:
- `src/src/sos-alert/sos-alert.service.ts` (SosAlertService)
- `src/src/message/message.service.ts` (MessageService)
- `src/src/message/gateway/chat.gateway.ts` (ChatGateway)
- `src/unnamed/part_001` (sos-alert.schema.ts: SosAlertStatus, SosAlert fields)

Mongo ObjectIds become `Nat`; `Date` timestamps become a `Nat` clock carried
by the store; every mongoose query used by the services is replaced by the
corresponding pure list operation over an explicit `Store`.  Throwing NestJS
exceptions becomes returning `Except Err`; the code always throws before any
write, so an `.error` result leaves the store untouched by construction.
WebSocket emissions become explicit event lists in the return value.
-/

/-- Mongo ObjectId, modelled as a natural number. -/
abbrev OId := Nat

/-- NestJS exception taxonomy used by the two services
(`NotFoundException`, `ForbiddenException`, `BadRequestException`). -/
inductive Err where
  | notFound (msg : String)
  | forbidden (msg : String)
  | badRequest (msg : String)
deriving DecidableEq, Repr

/-- `SosAlertStatus` enum from sos-alert.schema.ts. -/
inductive SosAlertStatus where
  | pending
  | callingParent
  | parentAnswered
  | parentNoAnswer
  | callingEmergency
  | emergencyCalled
  | resolved
  | cancelled
deriving DecidableEq, Repr

/-- `callType` of a call-history entry: `'PARENT' | 'EMERGENCY'`. -/
inductive CallType where
  | parent
  | emergency
deriving DecidableEq, Repr

/-- One entry of `SosAlert.callHistory`. -/
structure CallEntry where
  callSid : String
  phoneNumber : String
  callType : CallType
  status : String
  answered : Bool
  timestamp : Nat
deriving DecidableEq, Repr

/-- `SosAlert` document (sos-alert.schema.ts).  `metadata.roomId` is kept as
`metaRoomId`; the other free-form metadata does not affect any behaviour. -/
structure SosAlert where
  id : OId
  child : OId
  parent : OId
  status : SosAlertStatus
  parentCallAttempts : Nat
  emergencyCallAttempts : Nat
  callHistory : List CallEntry
  resolvedAt : Option Nat
  resolvedBy : Option OId
  metaRoomId : OId
deriving DecidableEq, Repr

/-- `senderModel` discriminator of a message: `'User' | 'Child'`. -/
inductive SenderModel where
  | user
  | child
deriving DecidableEq, Repr

/-- Principal type attached to a JWT payload (`currentUser.type`). -/
inductive ActorType where
  | child
  | user
deriving DecidableEq, Repr

/-- `UserRole` from user.schema.ts as used by the services
(`UserRole.ADMIN`, `UserRole.PARENT`). -/
inductive Role where
  | parent
  | admin
deriving DecidableEq, Repr

/-- The authenticated principal handed to every service entry point
(`currentUser`): id (the services normalise `id`/`sub`/`_id` to one value via
`getUserId`), `type`, and optional `role`. -/
structure Actor where
  id : OId
  ptype : ActorType
  role : Option Role
deriving DecidableEq, Repr

/-- `MessageType` discriminator from message.schema.ts. -/
inductive MessageType where
  | text
  | audio
  | callOffer
  | callAnswer
  | iceCandidate
deriving DecidableEq, Repr

/-- Signal request type: `'CALL_OFFER' | 'CALL_ANSWER' | 'ICE_CANDIDATE'`. -/
inductive SignalType where
  | callOffer
  | callAnswer
  | iceCandidate
deriving DecidableEq, Repr

/-- `MessageType[dto.type]` lookup used by `sendSignal`. -/
def SignalType.toMessageType : SignalType → MessageType
  | .callOffer => .callOffer
  | .callAnswer => .callAnswer
  | .iceCandidate => .iceCandidate

/-- Audio attachment metadata (`SendAudioDto.audio`). -/
structure AudioMeta where
  url : String
  durationSec : Option Nat
  mimeType : Option String
  sizeBytes : Option Nat
  cloudinaryPublicId : Option String
deriving DecidableEq, Repr

/-- WebRTC signaling payload: the service only inspects the `sdp` and
`candidate` fields; the rest is stored verbatim and never read. -/
structure SignalPayload where
  sdp : Option String
  candidate : Option String
deriving DecidableEq, Repr

/-- `Message` document (message.schema.ts), as created by the service. -/
structure Message where
  id : OId
  room : OId
  senderModel : SenderModel
  senderId : OId
  mtype : MessageType
  text : Option String
  audio : Option AudioMeta
  signalingPayload : Option SignalPayload
  createdAt : Nat
deriving DecidableEq, Repr

/-- `room.lastMessage` projection. -/
structure LastMessage where
  text : String
  senderModel : SenderModel
  senderId : OId
  createdAt : Nat
deriving DecidableEq, Repr

/-- `Room` document (room.schema.ts as used by the services). -/
structure Room where
  id : OId
  parent : OId
  child : OId
  invitedParents : List OId
  isActive : Bool
  lastMessage : Option LastMessage
deriving DecidableEq, Repr

/-- `Child` document fields read by the services: `parent` (primary parent)
and `linkedParents`. -/
structure ChildDoc where
  id : OId
  parent : OId
  linkedParents : List OId
deriving DecidableEq, Repr

/-- `User` document fields read by the services. -/
structure UserDoc where
  id : OId
  role : Role
  phoneNumber : Option String
deriving DecidableEq, Repr

/-- The document store: one list per mongoose collection, a fresh-id counter
for `create`, and the current clock (`new Date()`). Newly created documents
are consed at the head. -/
structure Store where
  children : List ChildDoc
  users : List UserDoc
  rooms : List Room
  messages : List Message
  alerts : List SosAlert
  nextId : OId
  now : Nat
deriving DecidableEq, Repr

/-- `childModel.findById`. -/
def findChild (st : Store) (cid : OId) : Option ChildDoc :=
  st.children.find? (fun c => c.id == cid)

/-- `userModel.findById`. -/
def findUser (st : Store) (uid : OId) : Option UserDoc :=
  st.users.find? (fun u => u.id == uid)

/-- `roomModel.findById`. -/
def findRoom (st : Store) (rid : OId) : Option Room :=
  st.rooms.find? (fun r => r.id == rid)

/-- `messageModel.findById`. -/
def findMessage (st : Store) (mid : OId) : Option Message :=
  st.messages.find? (fun m => m.id == mid)

/-- `sosAlertModel.findById`. -/
def findAlert (st : Store) (aid : OId) : Option SosAlert :=
  st.alerts.find? (fun a => a.id == aid)

/-- `sosAlertModel.findByIdAndUpdate` (field-level update `f`). -/
def updAlert (st : Store) (aid : OId) (f : SosAlert → SosAlert) : Store :=
  { st with alerts := st.alerts.map fun a => if a.id == aid then f a else a }

/-- `roomModel.findByIdAndUpdate` (field-level update `f`). -/
def updRoom (st : Store) (rid : OId) (f : Room → Room) : Store :=
  { st with rooms := st.rooms.map fun r => if r.id == rid then f r else r }

/-- The non-terminal ("active") alert statuses used in the `$in` queries:
`PENDING`, `CALLING_PARENT`, `CALLING_EMERGENCY`. -/
def isActiveStatus : SosAlertStatus → Bool
  | .pending => true
  | .callingParent => true
  | .callingEmergency => true
  | _ => false

/-- Terminal statuses per the data model: `RESOLVED`, `CANCELLED`,
`PARENT_ANSWERED`, `EMERGENCY_CALLED`. -/
def isTerminalStatus : SosAlertStatus → Bool
  | .resolved => true
  | .cancelled => true
  | .parentAnswered => true
  | .emergencyCalled => true
  | _ => false

/-- `sosAlertModel.findOne({child, status: {$in: [PENDING, CALLING_PARENT,
CALLING_EMERGENCY]}})`. -/
def findActiveAlert (st : Store) (cid : OId) : Option SosAlert :=
  st.alerts.find? (fun a => a.child == cid && isActiveStatus a.status)

/-- WebSocket emissions performed by `SosAlertService` through
`chatGateway.server.emit`. -/
inductive SosEmit where
  | sosCallOffer (roomId : OId) (alertId : OId)
  | sosCall (parentId : OId) (alertId : OId) (childId : OId)
  | sosEmergency (childId : OId) (alertId : OId) (phoneNumber : String)
  | sosResolved (childId : OId) (alertId : OId)
deriving DecidableEq, Repr

/-- `MAX_PARENT_CALL_ATTEMPTS` constant of `SosAlertService`. -/
def MAX_PARENT_CALL_ATTEMPTS : Nat := 2

/-- `EMERGENCY_NUMBER` constant of `SosAlertService` ('196'). -/
def EMERGENCY_NUMBER : String := "196"

/-- Result of `triggerSos`: the mutated store, the returned
`{alert, roomId, action}` object, and the websocket emissions. -/
structure TriggerOut where
  store : Store
  alert : SosAlert
  roomId : OId
  action : String
  emits : List SosEmit
deriving DecidableEq, Repr

/-- The `sosAlertModel.create({...})` document of `triggerSos` (its
call-history entry is pushed by a separate update afterwards). -/
def triggerSosNewAlert (childId parentId roomId : OId) (st : Store) : SosAlert :=
  { id := st.nextId, child := childId, parent := parentId,
    status := .callingParent, parentCallAttempts := 1,
    emergencyCallAttempts := 0, callHistory := [],
    resolvedAt := none, resolvedBy := none, metaRoomId := roomId }

/-- The initial PARENT call-history entry pushed by `triggerSos`
(`phoneNumber: parent.phoneNumber || 'N/A'`). -/
def triggerSosEntry (parent : UserDoc) (st : Store) : CallEntry :=
  { callSid := "SOS_CALL_" ++ toString st.nextId,
    phoneNumber := parent.phoneNumber.getD "N/A",
    callType := .parent, status := "initiated",
    answered := false, timestamp := st.now }

/-- The no-active-alert branch of `triggerSos`: create the alert, emit the
room-addressed call signal and the parent-addressed notification, push the
call-history entry. -/
def triggerSosCreate (childId : OId) (parent : UserDoc) (room : Room)
    (st : Store) : TriggerOut :=
  { store := updAlert
      { st with alerts := triggerSosNewAlert childId parent.id room.id st :: st.alerts,
                nextId := st.nextId + 1 }
      st.nextId
      (fun a => { a with callHistory := a.callHistory ++ [triggerSosEntry parent st] }),
    alert := triggerSosNewAlert childId parent.id room.id st,
    roomId := room.id, action := "CALL_INITIATED",
    emits := [ .sosCallOffer room.id st.nextId,
               .sosCall parent.id st.nextId childId ] }

/-- `SosAlertService.triggerSos` (sos-alert.service.ts:36-155).  The returned
`alert` is the in-memory document from `create`, i.e. without the
call-history entry pushed afterwards, exactly as in the source. -/
def triggerSos (childId : OId) (currentUser : Actor) (st : Store) :
    Except Err TriggerOut :=
  if currentUser.ptype != ActorType.child then
    .error (.forbidden "Only children can trigger SOS alerts")
  else if currentUser.id != childId then
    .error (.forbidden "You can only trigger SOS for yourself")
  else
    match findChild st childId with
    | none => .error (.notFound "Child not found")
    | some child =>
      match findUser st child.parent with
      | none => .error (.notFound "Parent not found")
      | some parent =>
        match st.rooms.find? (fun r =>
            r.parent == child.parent && r.child == childId && r.isActive) with
        | none => .error (.notFound
            "Chat room not found. Please ensure room exists between parent and child.")
        | some room =>
          match findActiveAlert st childId with
          | some activeAlert =>
            .ok { store := st, alert := activeAlert, roomId := room.id,
                  action := "CALL_INITIATED", emits := [] }
          | none =>
            .ok (triggerSosCreate childId parent room st)

/-- The EMERGENCY call-history entry pushed by `callEmergency`. -/
def emergencyEntry (st : Store) : CallEntry :=
  { callSid := "PHONE_DIALER_196", phoneNumber := EMERGENCY_NUMBER,
    callType := .emergency, status := "dialer_opened",
    answered := false, timestamp := st.now }

/-- `SosAlertService.callEmergency` (sos-alert.service.ts:221-270). -/
def callEmergency (alertId : OId) (st : Store) : Store × List SosEmit :=
  match findAlert st alertId with
  | none => (st, [])
  | some alert =>
    if alert.status == SosAlertStatus.resolved
        || alert.status == SosAlertStatus.cancelled then (st, [])
    else
      let st1 := updAlert st alertId fun a =>
        { a with status := .callingEmergency,
                 emergencyCallAttempts := a.emergencyCallAttempts + 1 }
      let emits : List SosEmit :=
        [ .sosEmergency alert.child alertId EMERGENCY_NUMBER ]
      let st2 := updAlert st1 alertId fun a =>
        { a with status := .emergencyCalled,
                 callHistory := a.callHistory ++ [emergencyEntry st] }
      (st2, emits)

/-- The retry PARENT call-history entry pushed by `checkCallStatus`
(`callSid: SOS_CALL_RETRY_<attempts+1>`). -/
def checkRetryEntry (st : Store) (attempts : Nat) : CallEntry :=
  { callSid := "SOS_CALL_RETRY_" ++ toString (attempts + 1),
    phoneNumber := "N/A", callType := .parent, status := "retry",
    answered := false, timestamp := st.now }

/-- `SosAlertService.checkCallStatus` (sos-alert.service.ts:160-216).  The
child/parent lookups there only feed the human-readable message text of the
retry emission, which this embedding's events do not carry. -/
def checkCallStatus (alertId : OId) (roomId : OId) (st : Store) :
    Store × List SosEmit :=
  match findAlert st alertId with
  | none => (st, [])
  | some alert =>
    if alert.status == SosAlertStatus.resolved
        || alert.status == SosAlertStatus.cancelled
        || alert.status == SosAlertStatus.parentAnswered then (st, [])
    else if alert.parentCallAttempts < MAX_PARENT_CALL_ATTEMPTS then
      let st1 := updAlert st alertId fun a =>
        { a with parentCallAttempts := a.parentCallAttempts + 1,
                 callHistory := a.callHistory ++ [checkRetryEntry st alert.parentCallAttempts] }
      (st1, [ .sosCallOffer roomId alertId ])
    else
      callEmergency alertId st

/-- `SosAlertService.markParentAnswered` (sos-alert.service.ts:275-317).  The
mongo `$set` with `arrayFilters [{elem.callType: 'PARENT', elem.answered:
false}]` updates every matching array element, hence the `map`. -/
def markParentAnswered (alertId : OId) (currentUser : Actor) (st : Store) :
    Except Err (Store × List SosEmit) :=
  match findAlert st alertId with
  | none => .error (.notFound "SOS alert not found")
  | some alert =>
    if currentUser.id != alert.parent then
      .error (.forbidden "Only the parent can mark themselves as answered")
    else
      let st1 := updAlert st alertId fun a =>
        { a with status := .parentAnswered,
                 resolvedAt := some st.now,
                 resolvedBy := some alert.parent,
                 callHistory := a.callHistory.map fun e =>
                   if e.callType == CallType.parent && e.answered == false then
                     { e with answered := true, status := "answered" }
                   else e }
      let emits : List SosEmit :=
        match findChild st alert.child with
        | some _ => [ .sosResolved alert.child alertId ]
        | none => []
      .ok (st1, emits)

/-- `MessageService.assertRoomAccess` (message.service.ts:135-180). -/
def assertRoomAccess (room : Room) (currentUser : Actor) : Except Err Unit :=
  if currentUser.role == some Role.admin then
    .ok ()
  else if currentUser.ptype == ActorType.child then
    if room.child == currentUser.id then .ok ()
    else .error (.forbidden "You can only access your own room")
  else
    if room.parent == currentUser.id
        || room.invitedParents.contains currentUser.id then .ok ()
    else .error (.forbidden
      "You can only access rooms with your children or rooms you are invited to")

/-- `MessageService.isRoomParticipant` (message.service.ts:186-198). -/
def isRoomParticipant (room : Room) (senderModel : SenderModel)
    (senderId : OId) : Bool :=
  match senderModel with
  | .child => room.child == senderId
  | .user =>
    room.parent == senderId || room.invitedParents.contains senderId

/-- `MessageService.validateSender` (message.service.ts:363-397). -/
def validateSender (st : Store) (room : Room) (senderModel : SenderModel)
    (senderId : OId) : Except Err Unit :=
  match senderModel with
  | .child =>
    if room.child == senderId then .ok ()
    else .error (.forbidden "senderId must match the child in this room")
  | .user =>
    if room.parent == senderId
        || room.invitedParents.contains senderId then .ok ()
    else
      match findChild st room.child with
      | some childDoc =>
        if childDoc.linkedParents.contains senderId then .ok ()
        else .error (.forbidden
          "senderId must be the main parent, an invited parent, or a linked parent of the child in this room")
      | none => .error (.forbidden
          "senderId must be the main parent, an invited parent, or a linked parent of the child in this room")

/-- `SendTextDto`. -/
structure SendTextDto where
  roomId : OId
  text : String
  senderModel : SenderModel
  senderId : OId
deriving DecidableEq, Repr

/-- `SendAudioDto`. -/
structure SendAudioDto where
  roomId : OId
  senderModel : SenderModel
  senderId : OId
  audio : AudioMeta
deriving DecidableEq, Repr

/-- `SendSignalDto`. -/
structure SendSignalDto where
  roomId : OId
  senderModel : SenderModel
  senderId : OId
  stype : SignalType
  payload : SignalPayload
deriving DecidableEq, Repr

/-- `MessageService.sendText` (message.service.ts:472-515). -/
def sendText (dto : SendTextDto) (currentUser : Actor) (st : Store) :
    Except Err (Store × Message) :=
  match findRoom st dto.roomId with
  | none => .error (.notFound "Room not found")
  | some room =>
    match assertRoomAccess room currentUser with
    | .error e => .error e
    | .ok () =>
      match validateSender st room dto.senderModel dto.senderId with
      | .error e => .error e
      | .ok () =>
        let msg : Message :=
          { id := st.nextId, room := room.id,
            senderModel := dto.senderModel, senderId := dto.senderId,
            mtype := .text, text := some dto.text, audio := none,
            signalingPayload := none, createdAt := st.now }
        let st1 : Store :=
          { st with messages := msg :: st.messages, nextId := st.nextId + 1 }
        let st2 := updRoom st1 room.id fun r =>
          { r with lastMessage := some (
              { text := dto.text, senderModel := dto.senderModel,
                senderId := msg.senderId, createdAt := st.now } : LastMessage) }
        .ok (st2, msg)

/-- `MessageService.sendAudio` (message.service.ts:520-551). -/
def sendAudio (dto : SendAudioDto) (currentUser : Actor) (st : Store) :
    Except Err (Store × Message) :=
  match findRoom st dto.roomId with
  | none => .error (.notFound "Room not found")
  | some room =>
    match assertRoomAccess room currentUser with
    | .error e => .error e
    | .ok () =>
      match validateSender st room dto.senderModel dto.senderId with
      | .error e => .error e
      | .ok () =>
        let msg : Message :=
          { id := st.nextId, room := room.id,
            senderModel := dto.senderModel, senderId := dto.senderId,
            mtype := .audio, text := none, audio := some dto.audio,
            signalingPayload := none, createdAt := st.now }
        let st1 : Store :=
          { st with messages := msg :: st.messages, nextId := st.nextId + 1 }
        let st2 := updRoom st1 room.id fun r =>
          { r with lastMessage := some (
              { text := "[Audio]", senderModel := dto.senderModel,
                senderId := msg.senderId, createdAt := st.now } : LastMessage) }
        .ok (st2, msg)

/-- `MessageService.sendSignal` (message.service.ts:557-620).  The runtime
`includes` check on `dto.type` is vacuous here because `SignalType` has
exactly the three admissible constructors.  Payload validation precedes the
room lookup, as in the source. -/
def sendSignal (dto : SendSignalDto) (_currentUser : Actor) (st : Store) :
    Except Err (Store × Message) :=
  if (dto.stype == SignalType.callOffer || dto.stype == SignalType.callAnswer)
      && dto.payload.sdp == none then
    .error (.badRequest "CALL_OFFER/CALL_ANSWER must contain an SDP in the payload")
  else if dto.stype == SignalType.iceCandidate
      && dto.payload.candidate == none then
    .error (.badRequest "ICE_CANDIDATE must contain a candidate in the payload")
  else
    match findRoom st dto.roomId with
    | none => .error (.notFound "Room not found")
    | some room =>
      if !isRoomParticipant room dto.senderModel dto.senderId then
        .error (.forbidden "You are not a participant of this room")
      else
        let msg : Message :=
          { id := st.nextId, room := room.id,
            senderModel := dto.senderModel, senderId := dto.senderId,
            mtype := dto.stype.toMessageType, text := none, audio := none,
            signalingPayload := some dto.payload, createdAt := st.now }
        let st1 : Store :=
          { st with messages := msg :: st.messages, nextId := st.nextId + 1 }
        .ok (st1, msg)

/-- `messageModel.findOne({room}).sort({createdAt: -1})`: the remaining
message of the room with the greatest `createdAt` (first such in store
order on ties). -/
def latestMessageInRoom (st : Store) (rid : OId) : Option Message :=
  (st.messages.filter (fun m => m.room == rid)).foldl
    (fun acc m =>
      match acc with
      | none => some m
      | some b => if m.createdAt > b.createdAt then some m else acc)
    none

/-- The sender check of `deleteMessage`: denial when the caller is not the
sender (`isSender`) or the actor type does not match the message's
senderModel (`isSenderModelMatch`). -/
def deleteDenied (message : Message) (currentUser : Actor) : Bool :=
  let isSender := message.senderId == currentUser.id
  let isSenderModelMatch :=
    (currentUser.ptype == ActorType.child
      && message.senderModel == SenderModel.child)
    || (currentUser.ptype != ActorType.child
      && message.senderModel == SenderModel.user)
  !isSender || !isSenderModelMatch

/-- `MessageService.deleteMessage` (message.service.ts:626-700).  The
best-effort Cloudinary deletion has no observable effect on the store.
`lastMessage.text || '[Audio]'` becomes `Option.getD`: messages without a
`text` field (audio and signal messages) project as `'[Audio]'`. -/
def deleteMessage (messageId : OId) (currentUser : Actor) (st : Store) :
    Except Err Store :=
  match findMessage st messageId with
  | none => .error (.notFound "Message not found")
  | some message =>
    match findRoom st message.room with
    | none => .error (.notFound "Room not found")
    | some room =>
      match assertRoomAccess room currentUser with
      | .error e => .error e
      | .ok () =>
        if deleteDenied message currentUser then
          .error (.forbidden "You can only delete your own messages")
        else
          let st1 : Store :=
            { st with messages := st.messages.filter (fun m => m.id != messageId) }
          match latestMessageInRoom st1 message.room with
          | some lm =>
            .ok (updRoom st1 message.room fun r =>
              { r with lastMessage := some (
                  { text := lm.text.getD "[Audio]",
                    senderModel := lm.senderModel,
                    senderId := lm.senderId,
                    createdAt := lm.createdAt } : LastMessage) })
          | none =>
            .ok (updRoom st1 message.room fun r =>
              { r with lastMessage := none })

/-- A connected socket as the gateway sees it: socket id, the JWT payload
cached at handshake on `client.data.user` (none when the handshake carried no
valid token), and the set of joined socket.io rooms (by room ObjectId). -/
structure SocketCl where
  sid : String
  user : Option Actor
  joined : List OId
deriving DecidableEq, Repr

/-- The `any`-typed body of the `sendText` socket event.  The gateway reads
`messageType`, `roomId`, `text`/`content`, `senderModel`, `senderId`. -/
structure GwBody where
  roomId : OId
  messageType : Option String
  text : Option String
  content : Option String
  senderModel : SenderModel
  senderId : OId
deriving DecidableEq, Repr

/-- Audience of a room emission: `server.to(room)` reaches every subscriber
including the sender; `client.to(room)` excludes the sender. -/
inductive Audience where
  | toAll
  | exceptSender
deriving DecidableEq, Repr

/-- Payload carried by a `newMessage` emission: either a message document
persisted by the message service, or the raw inbound body relayed verbatim
(in the `webrtc_signal` branch of `onSendText`). -/
inductive NewMsgPayload where
  | persisted (m : Message)
  | rawBody (b : GwBody)
deriving DecidableEq, Repr

/-- Server-to-client events emitted by the gateway handlers. -/
inductive GwEvent where
  | newMessage (roomId : OId) (payload : NewMsgPayload) (aud : Audience)
  | signalEvent (roomId : OId) (m : Message) (signalType : SignalType)
      (sender : OId)
  | presence (sid : String) (state : String) (roomId : OId)
deriving DecidableEq, Repr

/-- Acknowledgement value returned to the emitting client. -/
inductive GwRes where
  | okRoom (roomId : OId)
  | okRelay
  | okMsg (m : Message)
  | okSignal (m : Message)
  | errMsg (s : String)
deriving DecidableEq, Repr

/-- Human-readable `error.message` of a thrown service exception, as caught
and returned by the gateway handlers. -/
def Err.message : Err → String
  | .notFound s => s
  | .forbidden s => s
  | .badRequest s => s

/-- Output of a gateway handler: new socket state, new store, emissions,
acknowledgement, and whether the handler disconnected the socket (none of
the handlers ever calls `client.disconnect`, so it is always `false`, but
the embedding records it so the property is about the code, not assumed). -/
structure GwOut where
  client : SocketCl
  store : Store
  events : List GwEvent
  res : GwRes
  disconnected : Bool
deriving DecidableEq, Repr

/-- `ChatGateway.onJoinRoom` (chat.gateway.ts:78-117).  `data.roomId ||
data.room` is the optional room id; the missing-roomId check precedes the
authentication check, as in the source.  `client.join` is idempotent. -/
def onJoinRoom (client : SocketCl) (dataRoomId : Option OId) (st : Store) :
    GwOut :=
  match dataRoomId with
  | none =>
    { client := client, store := st, events := [],
      res := .errMsg "roomId is required", disconnected := false }
  | some roomId =>
    match client.user with
    | none =>
      { client := client, store := st, events := [],
        res := .errMsg "Unauthorized", disconnected := false }
    | some _ =>
      let joined :=
        if client.joined.contains roomId then client.joined
        else roomId :: client.joined
      { client := { client with joined := joined }, store := st,
        events := [ .presence client.sid "joined" roomId ],
        res := .okRoom roomId, disconnected := false }

/-- `ChatGateway.onLeaveRoom` (chat.gateway.ts:122-147).  Note: the source
has no authentication check in this handler. -/
def onLeaveRoom (client : SocketCl) (roomId : OId) (st : Store) : GwOut :=
  { client := { client with joined := client.joined.filter (fun r => r != roomId) },
    store := st,
    events := [ .presence client.sid "left" roomId ],
    res := .okRoom roomId, disconnected := false }

/-- `ChatGateway.onSendText` (chat.gateway.ts:153-217).  In the
`webrtc_signal` branch the raw body is broadcast as `newMessage` to the room
minus the sender without touching the store; otherwise the payload is
normalised (`body.text || body.content`, an absent text becoming the empty
string here) and handed to `MessageService.sendText`, whose persisted
message is then broadcast to the whole room. -/
def onSendText (client : SocketCl) (body : GwBody) (st : Store) : GwOut :=
  match client.user with
  | none =>
    { client := client, store := st, events := [],
      res := .errMsg "Unauthorized", disconnected := false }
  | some user =>
    if body.messageType == some "webrtc_signal" then
      { client := client, store := st,
        events := [ .newMessage body.roomId (.rawBody body) .exceptSender ],
        res := .okRelay, disconnected := false }
    else
      let dto : SendTextDto :=
        { roomId := body.roomId,
          text := (body.text.orElse fun _ => body.content).getD "",
          senderModel := body.senderModel, senderId := body.senderId }
      match sendText dto user st with
      | .error e =>
        { client := client, store := st, events := [],
          res := .errMsg e.message, disconnected := false }
      | .ok (st1, msg) =>
        { client := client, store := st1,
          events := [ .newMessage body.roomId (.persisted msg) .toAll ],
          res := .okMsg msg, disconnected := false }

/-- `ChatGateway.onSignal` (chat.gateway.ts:222-294): persists the signal via
`MessageService.sendSignal`, then broadcasts it to the room excluding the
sender. -/
def onSignal (client : SocketCl) (body : SendSignalDto) (st : Store) : GwOut :=
  match client.user with
  | none =>
    { client := client, store := st, events := [],
      res := .errMsg "Unauthorized", disconnected := false }
  | some user =>
    match sendSignal body user st with
    | .error e =>
      { client := client, store := st, events := [],
        res := .errMsg e.message, disconnected := false }
    | .ok (st1, msg) =>
      { client := client, store := st1,
        events := [ .signalEvent body.roomId msg body.stype body.senderId ],
        res := .okSignal msg, disconnected := false }

/-- Alerts of child `cid` currently in a non-terminal ("active") status. -/
def activeAlertsFor (st : Store) (cid : OId) : List SosAlert :=
  st.alerts.filter (fun a => a.child == cid && isActiveStatus a.status)

/-! ## Concrete fixtures used by witnesses and counterexamples -/

/-- A child linked to primary parent 2 and additionally to parent 6. -/
def wChild : ChildDoc := { id := 1, parent := 2, linkedParents := [6] }

/-- The primary parent. -/
def wParent : UserDoc := { id := 2, role := .parent, phoneNumber := some "555" }

/-- A parent on the room's invite list. -/
def wInvited : UserDoc := { id := 5, role := .parent, phoneNumber := none }

/-- A parent linked to the child but not on the room. -/
def wLinked : UserDoc := { id := 6, role := .parent, phoneNumber := none }

/-- An administrator. -/
def wAdmin : UserDoc := { id := 9, role := .admin, phoneNumber := none }

/-- The room between parent 2 and child 1, with parent 5 invited. -/
def wRoom : Room :=
  { id := 3, parent := 2, child := 1, invitedParents := [5],
    isActive := true, lastMessage := none }

/-- A baseline store with no messages and no alerts. -/
def wStore : Store :=
  { children := [wChild], users := [wParent, wInvited, wLinked, wAdmin],
    rooms := [wRoom], messages := [], alerts := [], nextId := 100, now := 7 }

/-- The child as an authenticated principal. -/
def wChildActor : Actor := { id := 1, ptype := .child, role := none }

/-- The primary parent as an authenticated principal. -/
def wParentActor : Actor := { id := 2, ptype := .user, role := some .parent }

/-- The administrator as an authenticated principal. -/
def wAdminActor : Actor := { id := 9, ptype := .user, role := some .admin }

/-- An alert that has completed the escalation path (EMERGENCY_CALLED after
both parent attempts were used). -/
def wDoneAlert : SosAlert :=
  { id := 50, child := 1, parent := 2, status := .emergencyCalled,
    parentCallAttempts := 2, emergencyCallAttempts := 1,
    callHistory := [], resolvedAt := none, resolvedBy := none, metaRoomId := 3 }

/-- Baseline store holding only the completed alert. -/
def wDoneStore : Store := { wStore with alerts := [wDoneAlert] }

/-- A resolved alert. -/
def wResolvedAlert : SosAlert :=
  { id := 51, child := 1, parent := 2, status := .resolved,
    parentCallAttempts := 1, emergencyCallAttempts := 0,
    callHistory := [], resolvedAt := some 7, resolvedBy := some 2,
    metaRoomId := 3 }

/-- Baseline store holding only the resolved alert. -/
def wResolvedStore : Store := { wStore with alerts := [wResolvedAlert] }

/-- An authenticated socket joined to room 3. -/
def wAuthClient : SocketCl := { sid := "s1", user := some wParentActor, joined := [3] }

/-- An unauthenticated socket (handshake carried no valid token). -/
def wAnonClient : SocketCl := { sid := "anon", user := none, joined := [] }

/-- A `sendText` body flagged as a WebRTC signal relay. -/
def wRelayBody : GwBody :=
  { roomId := 3, messageType := some "webrtc_signal", text := none,
    content := none, senderModel := .user, senderId := 2 }

/-- A plain `sendText` body. -/
def wTextBody : GwBody :=
  { roomId := 3, messageType := none, text := some "hi", content := none,
    senderModel := .user, senderId := 2 }

/-- An alert mid-escalation with two unanswered PARENT history entries
(the initial call and one retry). -/
def wTwoCallAlert : SosAlert :=
  { id := 60, child := 1, parent := 2, status := .callingParent,
    parentCallAttempts := 2, emergencyCallAttempts := 0,
    callHistory :=
      [ { callSid := "SOS_CALL_60", phoneNumber := "555", callType := .parent,
          status := "initiated", answered := false, timestamp := 7 },
        { callSid := "SOS_CALL_RETRY_2", phoneNumber := "N/A",
          callType := .parent, status := "retry", answered := false,
          timestamp := 8 } ],
    resolvedAt := none, resolvedBy := none, metaRoomId := 3 }

/-- Baseline store holding only the mid-escalation alert. -/
def wTwoCallStore : Store := { wStore with alerts := [wTwoCallAlert] }

/-- A text message in room 3 sent by parent 2. -/
def wMsg : Message :=
  { id := 40, room := 3, senderModel := .user, senderId := 2, mtype := .text,
    text := some "hello", audio := none, signalingPayload := none,
    createdAt := 5 }

/-- Baseline store holding only that message. -/
def wMsgStore : Store := { wStore with messages := [wMsg] }

/-- A concrete text send request. -/
def wTextDto : SendTextDto :=
  { roomId := 3, text := "hello", senderModel := .user, senderId := 2 }

/-- A concrete audio send request. -/
def wAudioDto : SendAudioDto :=
  { roomId := 3, senderModel := .user, senderId := 2,
    audio := { url := "https://res.example/audio1.m4a", durationSec := some 3,
               mimeType := some "audio/mp4", sizeBytes := some 1000,
               cloudinaryPublicId := some "pub1" } }

/-- A concrete CALL_OFFER signal request. -/
def wSignalDto : SendSignalDto :=
  { roomId := 3, senderModel := .user, senderId := 2, stype := .callOffer,
    payload := { sdp := some "v=0 o=-", candidate := none } }

/-! ## Theorems -/

/-- A keyed field-level update whose key is absent from the list is the
identity on the list. -/
theorem map_keyed_upd_id (l : List SosAlert) (n : OId) (f : SosAlert → SosAlert)
    (h : ∀ a ∈ l, a.id ≠ n) :
    (l.map fun a => if a.id == n then f a else a) = l := by
  induction l with
  | nil => rfl
  | cons x xs ih =>
    have hx : ¬ ((x.id == n) = true) := by
      simp only [beq_iff_eq]
      exact h x (List.mem_cons_self _ _)
    rw [List.map_cons, if_neg hx, ih fun a ha => h a (List.mem_cons_of_mem _ ha)]

/-- The store produced by the creation branch of `triggerSos`: the new alert
(with its pushed call-history entry) consed onto the untouched alert list. -/
theorem triggerSosCreate_store_alerts (childId : OId) (parent : UserDoc)
    (room : Room) (st : Store)
    (hfresh : ∀ a ∈ st.alerts, a.id ≠ st.nextId) :
    (triggerSosCreate childId parent room st).store.alerts =
      { (triggerSosCreate childId parent room st).alert with
          callHistory := [triggerSosEntry parent st] } :: st.alerts := by
  unfold triggerSosCreate updAlert
  simp only [List.map_cons]
  rw [map_keyed_upd_id st.alerts st.nextId _ hfresh]
  congr 1
  rw [if_pos]
  · rfl
  · simp [triggerSosNewAlert]

/-- C1: if an active (non-terminal) alert exists for the child, `triggerSos`
returns exactly that alert and leaves the store untouched (same id, no
attempt increment, no call-history entry, no new alert); otherwise it creates
one new alert with status CALLING_PARENT and parentCallAttempts = 1.  Either
way, "at most one active alert per child" is preserved for every child. -/
theorem triggerSos_idempotent_while_active
    (st : Store) (childId : OId) (u : Actor) (out : TriggerOut)
    (hfresh : ∀ a ∈ st.alerts, a.id ≠ st.nextId)
    (h : triggerSos childId u st = Except.ok out) :
    (∀ a, findActiveAlert st childId = some a → out.alert = a ∧ out.store = st) ∧
    (findActiveAlert st childId = none →
      out.alert.status = SosAlertStatus.callingParent ∧
      out.alert.parentCallAttempts = 1 ∧
      ∃ entry : CallEntry,
        out.store.alerts = { out.alert with callHistory := [entry] } :: st.alerts) ∧
    (∀ c, (activeAlertsFor st c).length ≤ 1 →
      (activeAlertsFor out.store c).length ≤ 1) := by
  unfold triggerSos at h
  split at h
  · exact absurd h (by simp)
  split at h
  · exact absurd h (by simp)
  split at h
  · exact absurd h (by simp)
  case _ child hchild =>
  split at h
  · exact absurd h (by simp)
  case _ parent hparent =>
  split at h
  · exact absurd h (by simp)
  case _ room hroom =>
  split at h
  case _ activeAlert hactive =>
    -- an active alert exists: returned unchanged
    rw [Except.ok.injEq] at h
    subst h
    refine ⟨?_, ?_, ?_⟩
    · intro a ha
      rw [hactive] at ha
      exact ⟨Option.some.inj ha, rfl⟩
    · intro hnone
      rw [hactive] at hnone
      exact absurd hnone (by simp)
    · intro c hc
      exact hc
  case _ hnoactive =>
    -- no active alert: a fresh one is created
    rw [Except.ok.injEq] at h
    subst h
    have hstore := triggerSosCreate_store_alerts childId parent room st hfresh
    refine ⟨?_, ?_, ?_⟩
    · intro a ha
      rw [hnoactive] at ha
      exact absurd ha (by simp)
    · intro _
      exact ⟨rfl, rfl, triggerSosEntry parent st, hstore⟩
    · intro c hc
      unfold activeAlertsFor at hc ⊢
      rw [hstore, List.filter_cons]
      by_cases hcc : c = childId
      · subst hcc
        have hnone' : st.alerts.find?
            (fun a => a.child == c && isActiveStatus a.status) = none := hnoactive
        have hnil : st.alerts.filter
            (fun a => a.child == c && isActiveStatus a.status) = [] := by
          rw [List.filter_eq_nil_iff]
          exact fun a ha => List.find?_eq_none.mp hnone' a ha
        rw [hnil]
        have hcond : ((({ (triggerSosCreate c parent room st).alert with
            callHistory := [triggerSosEntry parent st] } : SosAlert).child == c)
              && isActiveStatus ({ (triggerSosCreate c parent room st).alert with
            callHistory := [triggerSosEntry parent st] } : SosAlert).status) = true := by
          simp [triggerSosCreate, triggerSosNewAlert, isActiveStatus]
        rw [if_pos hcond]
        simp
      · have hcond : ((({ (triggerSosCreate childId parent room st).alert with
            callHistory := [triggerSosEntry parent st] } : SosAlert).child == c)
              && isActiveStatus ({ (triggerSosCreate childId parent room st).alert with
            callHistory := [triggerSosEntry parent st] } : SosAlert).status) = false := by
          simp only [triggerSosCreate, triggerSosNewAlert, Bool.and_eq_false_iff]
          exact Or.inl (beq_eq_false_iff_ne.mpr (fun he => hcc he.symm))
        rw [if_neg (by simp [hcond])]
        exact hc

/-- C1 witness: a fresh trigger by child 1 on the baseline store satisfies
the hypotheses of `triggerSos_idempotent_while_active` and its conclusion. -/
theorem triggerSos_idempotent_while_active_witness :
    (∀ a ∈ wStore.alerts, a.id ≠ wStore.nextId) ∧
    (triggerSos 1 wChildActor wStore =
      Except.ok (triggerSosCreate 1 wParent wRoom wStore)) ∧
    ((∀ a, findActiveAlert wStore 1 = some a →
        (triggerSosCreate 1 wParent wRoom wStore).alert = a ∧
        (triggerSosCreate 1 wParent wRoom wStore).store = wStore) ∧
     (findActiveAlert wStore 1 = none →
        (triggerSosCreate 1 wParent wRoom wStore).alert.status =
          SosAlertStatus.callingParent ∧
        (triggerSosCreate 1 wParent wRoom wStore).alert.parentCallAttempts = 1 ∧
        ∃ entry : CallEntry,
          (triggerSosCreate 1 wParent wRoom wStore).store.alerts =
            { (triggerSosCreate 1 wParent wRoom wStore).alert with
                callHistory := [entry] } :: wStore.alerts) ∧
     (∀ c, (activeAlertsFor wStore c).length ≤ 1 →
        (activeAlertsFor (triggerSosCreate 1 wParent wRoom wStore).store c).length ≤ 1)) :=
  ⟨by decide, by rfl,
   triggerSos_idempotent_while_active wStore 1 wChildActor
     (triggerSosCreate 1 wParent wRoom wStore) (by decide) (by rfl)⟩

/-- C2 counterexample: EMERGENCY_CALLED is a terminal status, yet
`checkCallStatus` firing on an EMERGENCY_CALLED alert (with both parent
attempts used) is not inert: it emits an emergency notification, increments
`emergencyCallAttempts` to 2 and appends another EMERGENCY call-history
entry, because its skip-check only covers RESOLVED/CANCELLED/PARENT_ANSWERED
and `callEmergency`'s skip-check only covers RESOLVED/CANCELLED. -/
theorem checkCallStatus_mutates_emergencyCalled :
    isTerminalStatus wDoneAlert.status = true ∧
    findAlert wDoneStore 50 = some wDoneAlert ∧
    (checkCallStatus 50 3 wDoneStore).2 ≠ [] ∧
    (findAlert (checkCallStatus 50 3 wDoneStore).1 50).map
      (fun a => a.emergencyCallAttempts) = some 2 ∧
    (findAlert (checkCallStatus 50 3 wDoneStore).1 50).map
      (fun a => a.callHistory.map CallEntry.callType) =
      some [CallType.emergency] := by
  decide

/-- C2 amended: `checkCallStatus` is a no-op (store unchanged, nothing
emitted) exactly on the statuses its skip-check covers — RESOLVED, CANCELLED
and PARENT_ANSWERED — and `callEmergency` is a no-op on RESOLVED and
CANCELLED; EMERGENCY_CALLED is covered by neither check. -/
theorem timer_steps_inert_on_skip_statuses
    (st : Store) (aid rid : OId) (a : SosAlert)
    (ha : findAlert st aid = some a) :
    (a.status = SosAlertStatus.resolved ∨ a.status = SosAlertStatus.cancelled ∨
        a.status = SosAlertStatus.parentAnswered →
      checkCallStatus aid rid st = (st, [])) ∧
    (a.status = SosAlertStatus.resolved ∨ a.status = SosAlertStatus.cancelled →
      callEmergency aid st = (st, [])) := by
  constructor
  · intro hs
    unfold checkCallStatus
    rw [ha]
    rcases hs with h' | h' | h' <;> simp [h']
  · intro hs
    unfold callEmergency
    rw [ha]
    rcases hs with h' | h' <;> simp [h']

/-- C2 witness: the two timer steps on a RESOLVED alert leave the store
unchanged and emit nothing. -/
theorem timer_steps_inert_witness :
    findAlert wResolvedStore 51 = some wResolvedAlert ∧
    ((wResolvedAlert.status = SosAlertStatus.resolved ∨
        wResolvedAlert.status = SosAlertStatus.cancelled ∨
        wResolvedAlert.status = SosAlertStatus.parentAnswered →
      checkCallStatus 51 3 wResolvedStore = (wResolvedStore, [])) ∧
     (wResolvedAlert.status = SosAlertStatus.resolved ∨
        wResolvedAlert.status = SosAlertStatus.cancelled →
      callEmergency 51 wResolvedStore = (wResolvedStore, []))) :=
  ⟨by decide, timer_steps_inert_on_skip_statuses wResolvedStore 51 3
    wResolvedAlert (by decide)⟩

/-- Looking an alert up by the id of the head of the alert list finds it. -/
theorem findAlert_of_head (st : Store) (x : SosAlert) (rest : List SosAlert)
    (n : OId) (hst : st.alerts = x :: rest) (hn : x.id = n) :
    findAlert st n = some x := by
  unfold findAlert
  rw [hst, List.find?_cons_of_pos _ (by simp [hn])]

/-- A keyed update on a store whose head alert carries the key rewrites the
head and leaves the (fresh-id) tail untouched. -/
theorem updAlert_of_head (st : Store) (x : SosAlert) (rest : List SosAlert)
    (n : OId) (f : SosAlert → SosAlert)
    (hst : st.alerts = x :: rest) (hn : x.id = n)
    (hfr : ∀ a ∈ rest, a.id ≠ n) :
    updAlert st n f = { st with alerts := f x :: rest } := by
  unfold updAlert
  rw [hst]
  simp only [List.map_cons]
  rw [if_pos (by simp [hn]), map_keyed_upd_id rest n f hfr]

/-- `checkCallStatus` in its retry branch: one more parent attempt, one
retry history entry, one room-addressed call signal. -/
theorem checkCallStatus_retry (st : Store) (n rid : OId) (x : SosAlert)
    (rest : List SosAlert)
    (hst : st.alerts = x :: rest) (hn : x.id = n)
    (hfr : ∀ a ∈ rest, a.id ≠ n)
    (hskip : (x.status == SosAlertStatus.resolved
      || x.status == SosAlertStatus.cancelled
      || x.status == SosAlertStatus.parentAnswered) = false)
    (hlt : x.parentCallAttempts < MAX_PARENT_CALL_ATTEMPTS) :
    checkCallStatus n rid st =
      ({ st with alerts :=
          { x with parentCallAttempts := x.parentCallAttempts + 1,
                   callHistory := x.callHistory
                     ++ [checkRetryEntry st x.parentCallAttempts] } :: rest },
       [ SosEmit.sosCallOffer rid n ]) := by
  unfold checkCallStatus
  rw [findAlert_of_head st x rest n hst hn]
  dsimp only
  rw [if_neg (by simp [hskip]), if_pos hlt,
    updAlert_of_head st x rest n _ hst hn hfr]

/-- `checkCallStatus` once the maximum number of parent attempts is reached
hands over to `callEmergency`. -/
theorem checkCallStatus_escalates (st : Store) (n rid : OId) (x : SosAlert)
    (rest : List SosAlert)
    (hst : st.alerts = x :: rest) (hn : x.id = n)
    (hskip : (x.status == SosAlertStatus.resolved
      || x.status == SosAlertStatus.cancelled
      || x.status == SosAlertStatus.parentAnswered) = false)
    (hge : ¬ x.parentCallAttempts < MAX_PARENT_CALL_ATTEMPTS) :
    checkCallStatus n rid st = callEmergency n st := by
  unfold checkCallStatus
  rw [findAlert_of_head st x rest n hst hn]
  dsimp only
  rw [if_neg (by simp [hskip]), if_neg hge]

/-- `callEmergency` on an alert that is neither RESOLVED nor CANCELLED:
final status EMERGENCY_CALLED, one more emergency attempt, one EMERGENCY
history entry, one child-addressed dial notification. -/
theorem callEmergency_proceeds (st : Store) (n : OId) (x : SosAlert)
    (rest : List SosAlert)
    (hst : st.alerts = x :: rest) (hn : x.id = n)
    (hfr : ∀ a ∈ rest, a.id ≠ n)
    (hskip : (x.status == SosAlertStatus.resolved
      || x.status == SosAlertStatus.cancelled) = false) :
    callEmergency n st =
      ({ st with alerts :=
          { x with status := SosAlertStatus.emergencyCalled,
                   emergencyCallAttempts := x.emergencyCallAttempts + 1,
                   callHistory := x.callHistory ++ [emergencyEntry st] } :: rest },
       [ SosEmit.sosEmergency x.child n EMERGENCY_NUMBER ]) := by
  unfold callEmergency
  rw [findAlert_of_head st x rest n hst hn]
  dsimp only
  rw [if_neg (by simp [hskip]),
    updAlert_of_head st x rest n _ hst hn hfr]
  rw [updAlert_of_head _
    ({ x with status := SosAlertStatus.callingEmergency,
              emergencyCallAttempts := x.emergencyCallAttempts + 1 })
    rest n _ rfl hn hfr]

/-- Head-alert characterisation of the creation branch of `triggerSos`. -/
theorem triggerSosCreate_facts (childId : OId) (parent : UserDoc) (room : Room)
    (st : Store) (hfresh : ∀ a ∈ st.alerts, a.id ≠ st.nextId) :
    ∃ x : SosAlert,
      (triggerSosCreate childId parent room st).store.alerts = x :: st.alerts ∧
      x.id = st.nextId ∧ x.status = SosAlertStatus.callingParent ∧
      x.parentCallAttempts = 1 ∧ x.emergencyCallAttempts = 0 := by
  rw [triggerSosCreate_store_alerts childId parent room st hfresh]
  exact ⟨_, rfl, rfl, rfl, rfl, rfl⟩

/-- Head-alert characterisation of the retry branch of `checkCallStatus`. -/
theorem checkCallStatus_retry_facts (st : Store) (n rid : OId) (x : SosAlert)
    (rest : List SosAlert)
    (hst : st.alerts = x :: rest) (hn : x.id = n)
    (hfr : ∀ a ∈ rest, a.id ≠ n)
    (hskip : (x.status == SosAlertStatus.resolved
      || x.status == SosAlertStatus.cancelled
      || x.status == SosAlertStatus.parentAnswered) = false)
    (hlt : x.parentCallAttempts < MAX_PARENT_CALL_ATTEMPTS) :
    ∃ x' : SosAlert, (checkCallStatus n rid st).1.alerts = x' :: rest ∧
      x'.id = x.id ∧ x'.status = x.status ∧
      x'.parentCallAttempts = x.parentCallAttempts + 1 ∧
      x'.emergencyCallAttempts = x.emergencyCallAttempts := by
  rw [checkCallStatus_retry st n rid x rest hst hn hfr hskip hlt]
  exact ⟨_, rfl, rfl, rfl, rfl, rfl⟩

/-- Head-alert characterisation of a proceeding `callEmergency`. -/
theorem callEmergency_facts (st : Store) (n : OId) (x : SosAlert)
    (rest : List SosAlert)
    (hst : st.alerts = x :: rest) (hn : x.id = n)
    (hfr : ∀ a ∈ rest, a.id ≠ n)
    (hskip : (x.status == SosAlertStatus.resolved
      || x.status == SosAlertStatus.cancelled) = false) :
    ∃ x' : SosAlert, (callEmergency n st).1.alerts = x' :: rest ∧
      x'.id = x.id ∧ x'.status = SosAlertStatus.emergencyCalled ∧
      x'.emergencyCallAttempts = x.emergencyCallAttempts + 1 ∧
      x'.callHistory = x.callHistory ++ [emergencyEntry st] := by
  rw [callEmergency_proceeds st n x rest hst hn hfr hskip]
  exact ⟨_, rfl, rfl, rfl, rfl, rfl⟩

/-- C3: a fresh trigger whose parent never answers, after the two timer
firings (two parent attempts in total), ends with the alert in status
EMERGENCY_CALLED, `emergencyCallAttempts = 1`, and an EMERGENCY call-history
entry whose phone number is the fixed emergency number '196'. -/
theorem escalation_ends_emergency_called
    (st : Store) (childId : OId) (u : Actor) (child : ChildDoc)
    (parent : UserDoc) (room : Room)
    (hu1 : u.ptype = ActorType.child) (hu2 : u.id = childId)
    (hchild : findChild st childId = some child)
    (hparent : findUser st child.parent = some parent)
    (hroom : st.rooms.find? (fun r =>
        r.parent == child.parent && r.child == childId && r.isActive) = some room)
    (hnoactive : findActiveAlert st childId = none)
    (hfresh : ∀ a ∈ st.alerts, a.id ≠ st.nextId) :
    triggerSos childId u st = Except.ok (triggerSosCreate childId parent room st) ∧
    ∃ a : SosAlert,
      findAlert
        ((checkCallStatus st.nextId room.id
          ((checkCallStatus st.nextId room.id
            (triggerSosCreate childId parent room st).store).1)).1)
        st.nextId = some a ∧
      a.status = SosAlertStatus.emergencyCalled ∧
      a.emergencyCallAttempts = 1 ∧
      ∃ e ∈ a.callHistory, e.callType = CallType.emergency ∧
        e.phoneNumber = EMERGENCY_NUMBER := by
  constructor
  · unfold triggerSos
    simp only [hu1, hu2, bne_self_eq_false, Bool.false_eq_true, if_false,
      hchild, hparent, hroom, hnoactive]
  · obtain ⟨A1, hS1, hA1id, hA1status, hA1att, hA1em⟩ :=
      triggerSosCreate_facts childId parent room st hfresh
    have hfr1 : ∀ a ∈ st.alerts, a.id ≠ st.nextId := hfresh
    have hskip1 : (A1.status == SosAlertStatus.resolved
        || A1.status == SosAlertStatus.cancelled
        || A1.status == SosAlertStatus.parentAnswered) = false := by
      rw [hA1status]; decide
    have hlt1 : A1.parentCallAttempts < MAX_PARENT_CALL_ATTEMPTS := by
      rw [hA1att]; decide
    obtain ⟨A2, hS2, hA2id, hA2status, hA2att, hA2em⟩ :=
      checkCallStatus_retry_facts
        (triggerSosCreate childId parent room st).store st.nextId room.id
        A1 st.alerts hS1 hA1id hfr1 hskip1 hlt1
    have hA2id' : A2.id = st.nextId := hA2id.trans hA1id
    have hskip2 : (A2.status == SosAlertStatus.resolved
        || A2.status == SosAlertStatus.cancelled
        || A2.status == SosAlertStatus.parentAnswered) = false := by
      rw [hA2status, hA1status]; decide
    have hge2 : ¬ A2.parentCallAttempts < MAX_PARENT_CALL_ATTEMPTS := by
      rw [hA2att, hA1att]; decide
    rw [checkCallStatus_escalates
      ((checkCallStatus st.nextId room.id
        (triggerSosCreate childId parent room st).store).1)
      st.nextId room.id A2 st.alerts hS2 hA2id' hskip2 hge2]
    have hskip2' : (A2.status == SosAlertStatus.resolved
        || A2.status == SosAlertStatus.cancelled) = false := by
      rw [hA2status, hA1status]; decide
    obtain ⟨A3, hS3, hA3id, hA3status, hA3em, hA3hist⟩ :=
      callEmergency_facts
        ((checkCallStatus st.nextId room.id
          (triggerSosCreate childId parent room st).store).1)
        st.nextId A2 st.alerts hS2 hA2id' hfr1 hskip2'
    refine ⟨A3, findAlert_of_head _ A3 st.alerts st.nextId hS3
      (hA3id.trans hA2id'), hA3status, ?_, ?_⟩
    · rw [hA3em, hA2em, hA1em]
    · refine ⟨emergencyEntry
        ((checkCallStatus st.nextId room.id
          (triggerSosCreate childId parent room st).store).1), ?_, rfl, rfl⟩
      rw [hA3hist]
      exact List.mem_append_right _ (List.mem_singleton_self _)

/-- C3 witness: on the baseline store, child 1's trigger followed by the two
timer firings reaches EMERGENCY_CALLED with one emergency attempt and a
'196' EMERGENCY history entry. -/
theorem escalation_ends_emergency_called_witness :
    wChildActor.ptype = ActorType.child ∧ wChildActor.id = 1 ∧
    findChild wStore 1 = some wChild ∧
    findUser wStore wChild.parent = some wParent ∧
    wStore.rooms.find? (fun r =>
        r.parent == wChild.parent && r.child == 1 && r.isActive) = some wRoom ∧
    findActiveAlert wStore 1 = none ∧
    (∀ a ∈ wStore.alerts, a.id ≠ wStore.nextId) ∧
    (triggerSos 1 wChildActor wStore =
        Except.ok (triggerSosCreate 1 wParent wRoom wStore) ∧
      ∃ a : SosAlert,
        findAlert
          ((checkCallStatus wStore.nextId wRoom.id
            ((checkCallStatus wStore.nextId wRoom.id
              (triggerSosCreate 1 wParent wRoom wStore).store).1)).1)
          wStore.nextId = some a ∧
        a.status = SosAlertStatus.emergencyCalled ∧
        a.emergencyCallAttempts = 1 ∧
        ∃ e ∈ a.callHistory, e.callType = CallType.emergency ∧
          e.phoneNumber = EMERGENCY_NUMBER) :=
  ⟨rfl, rfl, by decide, by decide, by decide, by decide, by decide,
   escalation_ends_emergency_called wStore 1 wChildActor wChild wParent wRoom
     rfl rfl (by decide) (by decide) (by decide) (by decide) (by decide)⟩

/-- C4: `validateSender` succeeds exactly for the room's child (matching id),
the room's primary parent, an invited parent, or a parent linked to the
child record; every other (senderModel, senderId) pair fails with a
Forbidden error. -/
theorem validateSender_exact (st : Store) (room : Room) (sm : SenderModel)
    (sid : OId) :
    (validateSender st room sm sid = Except.ok () ↔
      ((sm = SenderModel.child ∧ room.child = sid) ∨
       (sm = SenderModel.user ∧ (room.parent = sid ∨ sid ∈ room.invitedParents ∨
         ∃ cd : ChildDoc, findChild st room.child = some cd ∧
           sid ∈ cd.linkedParents)))) ∧
    (¬ ((sm = SenderModel.child ∧ room.child = sid) ∨
        (sm = SenderModel.user ∧ (room.parent = sid ∨ sid ∈ room.invitedParents ∨
          ∃ cd : ChildDoc, findChild st room.child = some cd ∧
            sid ∈ cd.linkedParents))) →
      ∃ s, validateSender st room sm sid = Except.error (Err.forbidden s)) := by
  cases sm with
  | child =>
    by_cases hc : room.child = sid
    · exact ⟨by simp [validateSender, hc], fun hnp => absurd (Or.inl ⟨rfl, hc⟩) hnp⟩
    · refine ⟨by simp [validateSender, hc], fun _ => ?_⟩
      refine ⟨"senderId must match the child in this room", ?_⟩
      simp [validateSender, hc]
  | user =>
    by_cases hmain : room.parent = sid
    · have hPfull : (SenderModel.user = SenderModel.child ∧ room.child = sid) ∨
          (SenderModel.user = SenderModel.user ∧
            (room.parent = sid ∨ sid ∈ room.invitedParents ∨
              ∃ cd : ChildDoc, findChild st room.child = some cd ∧
                sid ∈ cd.linkedParents)) := Or.inr ⟨rfl, Or.inl hmain⟩
      refine ⟨?_, fun hnp => absurd hPfull hnp⟩
      exact ⟨fun _ => hPfull, fun _ => by simp [validateSender, hmain]⟩
    by_cases hinv : sid ∈ room.invitedParents
    · have hPfull : (SenderModel.user = SenderModel.child ∧ room.child = sid) ∨
          (SenderModel.user = SenderModel.user ∧
            (room.parent = sid ∨ sid ∈ room.invitedParents ∨
              ∃ cd : ChildDoc, findChild st room.child = some cd ∧
                sid ∈ cd.linkedParents)) := Or.inr ⟨rfl, Or.inr (Or.inl hinv)⟩
      refine ⟨?_, fun hnp => absurd hPfull hnp⟩
      exact ⟨fun _ => hPfull, fun _ => by simp [validateSender, hinv]⟩
    cases hcd : findChild st room.child with
    | none =>
      refine ⟨by simp [validateSender, hmain, hinv, hcd], fun _ => ?_⟩
      refine ⟨"senderId must be the main parent, an invited parent, or a linked parent of the child in this room", ?_⟩
      simp [validateSender, hmain, hinv, hcd]
    | some cd =>
      by_cases hl : sid ∈ cd.linkedParents
      · have hPfull : (SenderModel.user = SenderModel.child ∧ room.child = sid) ∨
            (SenderModel.user = SenderModel.user ∧
              (room.parent = sid ∨ sid ∈ room.invitedParents ∨
                ∃ cd' : ChildDoc, some cd = some cd' ∧
                  sid ∈ cd'.linkedParents)) :=
          Or.inr ⟨rfl, Or.inr (Or.inr ⟨cd, rfl, hl⟩)⟩
        refine ⟨?_, fun hnp => absurd hPfull hnp⟩
        exact ⟨fun _ => hPfull, fun _ => by simp [validateSender, hcd, hl]⟩
      · refine ⟨by simp [validateSender, hmain, hinv, hcd, hl], fun _ => ?_⟩
        refine ⟨"senderId must be the main parent, an invited parent, or a linked parent of the child in this room", ?_⟩
        simp [validateSender, hmain, hinv, hcd, hl]

/-- C4 witness: the exact characterisation instantiated at the baseline room
and the linked-but-not-invited parent 6 (the fallback case). -/
theorem validateSender_exact_witness :
    (validateSender wStore wRoom SenderModel.user 6 = Except.ok () ↔
      ((SenderModel.user = SenderModel.child ∧ wRoom.child = 6) ∨
       (SenderModel.user = SenderModel.user ∧
         (wRoom.parent = 6 ∨ (6 : OId) ∈ wRoom.invitedParents ∨
          ∃ cd : ChildDoc, findChild wStore wRoom.child = some cd ∧
            (6 : OId) ∈ cd.linkedParents)))) ∧
    (¬ ((SenderModel.user = SenderModel.child ∧ wRoom.child = 6) ∨
        (SenderModel.user = SenderModel.user ∧
          (wRoom.parent = 6 ∨ (6 : OId) ∈ wRoom.invitedParents ∨
           ∃ cd : ChildDoc, findChild wStore wRoom.child = some cd ∧
             (6 : OId) ∈ cd.linkedParents))) →
      ∃ s, validateSender wStore wRoom SenderModel.user 6 =
        Except.error (Err.forbidden s)) :=
  validateSender_exact wStore wRoom SenderModel.user 6

/-- C5: for a parent principal (a non-admin user), whenever
`assertRoomAccess` accepts the principal, `isRoomParticipant` accepts the
same id as a User sender — there is no (room, parent) pair rejected by the
latter but accepted by the former. -/
theorem assertRoomAccess_le_isRoomParticipant
    (room : Room) (u : Actor)
    (hptype : u.ptype = ActorType.user)
    (hrole : u.role ≠ some Role.admin)
    (hacc : assertRoomAccess room u = Except.ok ()) :
    isRoomParticipant room SenderModel.user u.id = true := by
  have h1 : (u.role == some Role.admin) = false := beq_eq_false_iff_ne.mpr hrole
  have h2 : (u.ptype == ActorType.child) = false := by rw [hptype]; decide
  unfold assertRoomAccess at hacc
  rw [if_neg (by simp [h1]), if_neg (by simp [h2])] at hacc
  by_cases h3 : (room.parent == u.id || room.invitedParents.contains u.id) = true
  · exact h3
  · rw [if_neg h3] at hacc
    exact absurd hacc (by simp)

/-- C5 witness: the primary parent passes `assertRoomAccess` on the baseline
room and is accepted by `isRoomParticipant` as a User sender. -/
theorem assertRoomAccess_le_isRoomParticipant_witness :
    wParentActor.ptype = ActorType.user ∧
    wParentActor.role ≠ some Role.admin ∧
    assertRoomAccess wRoom wParentActor = Except.ok () ∧
    isRoomParticipant wRoom SenderModel.user wParentActor.id = true :=
  ⟨rfl, by decide, by rfl,
   assertRoomAccess_le_isRoomParticipant wRoom wParentActor rfl (by decide) (by rfl)⟩

/-- C6 counterexample: an inbound `sendText` flagged `webrtc_signal` makes
the gateway emit a `newMessage` event whose payload is the raw inbound body,
while the store is left completely unchanged (here it contains no message at
all) — a `newMessage` broadcast for data that was never persisted. -/
theorem onSendText_relays_unpersisted_newMessage :
    (onSendText wAuthClient wRelayBody wStore).events =
      [GwEvent.newMessage 3 (NewMsgPayload.rawBody wRelayBody)
        Audience.exceptSender] ∧
    (onSendText wAuthClient wRelayBody wStore).store = wStore ∧
    wStore.messages = [] ∧
    (∀ m : Message, NewMsgPayload.rawBody wRelayBody ≠ NewMsgPayload.persisted m) :=
  ⟨by decide, by decide, rfl, fun _ h => NewMsgPayload.noConfusion h⟩

/-- A successful `sendText` leaves its persisted message in the resulting
store. -/
theorem sendText_msg_mem (dto : SendTextDto) (u : Actor) (st st' : Store)
    (msg : Message) (h : sendText dto u st = Except.ok (st', msg)) :
    msg ∈ st'.messages := by
  unfold sendText at h
  split at h
  · exact absurd h (by simp)
  split at h
  · exact absurd h (by simp)
  split at h
  · exact absurd h (by simp)
  rw [Except.ok.injEq] at h
  have h1 := congrArg Prod.fst h
  have h2 := congrArg Prod.snd h
  dsimp only at h1 h2
  rw [← h1, ← h2]
  exact List.mem_cons_self _ _

/-- C6 amended: for inbound sends not flagged `webrtc_signal`, every
`newMessage` the gateway emits carries exactly the message persisted by that
call, and that message is present in the resulting store (persistence
happens-before broadcast); `webrtc_signal` bodies, by contrast, are relayed
as `newMessage` without persistence. -/
theorem onSendText_newMessage_is_persisted
    (c : SocketCl) (body : GwBody) (st : Store)
    (hmt : body.messageType ≠ some "webrtc_signal") :
    ∀ rid p aud, GwEvent.newMessage rid p aud ∈ (onSendText c body st).events →
      ∃ m : Message, p = NewMsgPayload.persisted m ∧
        m ∈ (onSendText c body st).store.messages := by
  intro rid p aud hmem
  unfold onSendText at hmem ⊢
  cases hc : c.user with
  | none =>
    rw [hc] at hmem
    simp at hmem
  | some user =>
    rw [hc] at hmem
    dsimp only at hmem ⊢
    have hcond : ¬ ((body.messageType == some "webrtc_signal") = true) := by
      simp [hmt]
    rw [if_neg hcond] at hmem ⊢
    cases hsend : sendText
        { roomId := body.roomId,
          text := (body.text.orElse fun _ => body.content).getD "",
          senderModel := body.senderModel, senderId := body.senderId }
        user st with
    | error e =>
      rw [hsend] at hmem
      simp at hmem
    | ok pair =>
      obtain ⟨st1, msg⟩ := pair
      rw [hsend] at hmem
      dsimp only at hmem ⊢
      simp only [List.mem_singleton, GwEvent.newMessage.injEq] at hmem
      obtain ⟨_, hp, _⟩ := hmem
      subst hp
      exact ⟨msg, rfl, sendText_msg_mem _ user st st1 msg hsend⟩

/-- C6 witness: a plain text body (not `webrtc_signal`) sent by the
authenticated parent satisfies the hypothesis, the send succeeds, and the
broadcast-persistence property holds at that input. -/
theorem onSendText_newMessage_is_persisted_witness :
    wTextBody.messageType ≠ some "webrtc_signal" ∧
    (onSendText wAuthClient wTextBody wStore).events ≠ [] ∧
    (∀ rid p aud,
      GwEvent.newMessage rid p aud ∈ (onSendText wAuthClient wTextBody wStore).events →
      ∃ m : Message, p = NewMsgPayload.persisted m ∧
        m ∈ (onSendText wAuthClient wTextBody wStore).store.messages) :=
  ⟨by decide, by decide,
   onSendText_newMessage_is_persisted wAuthClient wTextBody wStore (by decide)⟩

/-- Every failure of `assertRoomAccess` is a Forbidden error. -/
theorem assertRoomAccess_error_forbidden (room : Room) (u : Actor) (e : Err)
    (h : assertRoomAccess room u = Except.error e) : ∃ s, e = Err.forbidden s := by
  unfold assertRoomAccess at h
  split at h
  · exact absurd h (by simp)
  split at h
  · split at h
    · exact absurd h (by simp)
    · exact ⟨_, (Except.error.inj h).symm⟩
  · split at h
    · exact absurd h (by simp)
    · exact ⟨_, (Except.error.inj h).symm⟩

/-- The denial flag of `deleteMessage` is false exactly when the caller's
(id, actor type) matches the message's (senderId, senderModel). -/
theorem deleteDenied_eq_false_iff (m : Message) (u : Actor) :
    deleteDenied m u = false ↔
      (m.senderId = u.id ∧
        ((u.ptype = ActorType.child ∧ m.senderModel = SenderModel.child) ∨
         (u.ptype ≠ ActorType.child ∧ m.senderModel = SenderModel.user))) := by
  unfold deleteDenied
  cases hpt : u.ptype <;> cases hsm : m.senderModel <;>
    by_cases hsid : m.senderId = u.id <;> simp [hsid, hpt, hsm]

/-- C7: `deleteMessage` succeeds only for a caller whose (id, actor type)
matches the message's (senderId, senderModel) and who passes
`assertRoomAccess`; every non-matching caller — an admin included — gets a
Forbidden error. -/
theorem deleteMessage_only_sender
    (st : Store) (mid : OId) (u : Actor) (m : Message) (room : Room)
    (hm : findMessage st mid = some m)
    (hr : findRoom st m.room = some room) :
    (∀ st', deleteMessage mid u st = Except.ok st' →
      m.senderId = u.id ∧
      ((u.ptype = ActorType.child ∧ m.senderModel = SenderModel.child) ∨
       (u.ptype ≠ ActorType.child ∧ m.senderModel = SenderModel.user)) ∧
      assertRoomAccess room u = Except.ok ()) ∧
    (¬ (m.senderId = u.id ∧
        ((u.ptype = ActorType.child ∧ m.senderModel = SenderModel.child) ∨
         (u.ptype ≠ ActorType.child ∧ m.senderModel = SenderModel.user))) →
      ∃ s, deleteMessage mid u st = Except.error (Err.forbidden s)) := by
  unfold deleteMessage
  rw [hm]
  dsimp only
  rw [hr]
  dsimp only
  cases hacc : assertRoomAccess room u with
  | error e =>
    constructor
    · intro st' hst'
      exact absurd hst' (by simp)
    · intro _
      obtain ⟨s, hs⟩ := assertRoomAccess_error_forbidden room u e hacc
      exact ⟨s, by rw [hs]⟩
  | ok uu =>
    cases uu
    constructor
    · intro st' hst'
      by_cases hP : (m.senderId = u.id ∧
          ((u.ptype = ActorType.child ∧ m.senderModel = SenderModel.child) ∨
           (u.ptype ≠ ActorType.child ∧ m.senderModel = SenderModel.user)))
      · exact ⟨hP.1, hP.2, rfl⟩
      · have hcond : deleteDenied m u = true := by
          cases hcb : deleteDenied m u
          · exact absurd ((deleteDenied_eq_false_iff m u).mp hcb) hP
          · rfl
        rw [if_pos hcond] at hst'
        exact absurd hst' (by simp)
    · intro hnp
      have hcond : deleteDenied m u = true := by
        cases hcb : deleteDenied m u
        · exact absurd ((deleteDenied_eq_false_iff m u).mp hcb) hnp
        · rfl
      rw [if_pos hcond]
      exact ⟨_, rfl⟩

/-- C7 witness: an admin who is not the sender of the stored message — and
who passes `assertRoomAccess` thanks to the admin bypass — is still refused
with Forbidden. -/
theorem deleteMessage_only_sender_witness :
    findMessage wMsgStore 40 = some wMsg ∧
    findRoom wMsgStore wMsg.room = some wRoom ∧
    ((∀ st', deleteMessage 40 wAdminActor wMsgStore = Except.ok st' →
      wMsg.senderId = wAdminActor.id ∧
      ((wAdminActor.ptype = ActorType.child ∧ wMsg.senderModel = SenderModel.child) ∨
       (wAdminActor.ptype ≠ ActorType.child ∧ wMsg.senderModel = SenderModel.user)) ∧
      assertRoomAccess wRoom wAdminActor = Except.ok ()) ∧
    (¬ (wMsg.senderId = wAdminActor.id ∧
        ((wAdminActor.ptype = ActorType.child ∧ wMsg.senderModel = SenderModel.child) ∨
         (wAdminActor.ptype ≠ ActorType.child ∧ wMsg.senderModel = SenderModel.user))) →
      ∃ s, deleteMessage 40 wAdminActor wMsgStore = Except.error (Err.forbidden s))) :=
  ⟨by decide, by decide,
   deleteMessage_only_sender wMsgStore 40 wAdminActor wMsg wRoom (by decide) (by decide)⟩

/-- C8 counterexample: with two unanswered PARENT call-history entries (the
initial call and a retry), `markParentAnswered` by the alert's parent marks
BOTH entries answered — the mongo `arrayFilters` update touches every
matching element, not only the most recent one. -/
theorem markParentAnswered_marks_every_unanswered :
    wTwoCallAlert.callHistory.map CallEntry.answered = [false, false] ∧
    wTwoCallAlert.callHistory.map CallEntry.callType =
      [CallType.parent, CallType.parent] ∧
    ((markParentAnswered 60 wParentActor wTwoCallStore).toOption.bind
      (fun r => (findAlert r.1 60).map
        (fun a => a.callHistory.map CallEntry.answered))) = some [true, true] := by
  decide

/-- A keyed, id-preserving update commutes with looking the key up. -/
theorem find?_keyed_upd (l : List SosAlert) (n : OId) (f : SosAlert → SosAlert)
    (hpres : ∀ a, (f a).id = a.id) :
    (l.map fun a => if a.id == n then f a else a).find? (fun a => a.id == n) =
      (l.find? (fun a => a.id == n)).map f := by
  induction l with
  | nil => rfl
  | cons x xs ih =>
    cases hx : (x.id == n) with
    | true =>
      rw [List.map_cons, if_pos hx]
      simp only [List.find?]
      rw [hpres x, hx]
      rfl
    | false =>
      rw [List.map_cons, if_neg (by simp [hx])]
      simp only [List.find?]
      rw [hx, ih]

/-- C8 amended: `markParentAnswered` requires the actor to be the alert's
parent (Forbidden otherwise); on success it sets PARENT_ANSWERED, stamps
resolvedAt/resolvedBy, marks EVERY unanswered PARENT call-history entry as
answered (not only the most recent), and notifies the child exactly when the
child document exists. -/
theorem markParentAnswered_spec (st : Store) (aid : OId) (u : Actor)
    (a : SosAlert) (ha : findAlert st aid = some a) :
    (u.id ≠ a.parent →
      ∃ s, markParentAnswered aid u st = Except.error (Err.forbidden s)) ∧
    (u.id = a.parent →
      ∃ st' emits, markParentAnswered aid u st = Except.ok (st', emits) ∧
        findAlert st' aid = some (
          { a with status := SosAlertStatus.parentAnswered,
                   resolvedAt := some st.now, resolvedBy := some a.parent,
                   callHistory := a.callHistory.map (fun e =>
                     if e.callType == CallType.parent && e.answered == false then
                       { e with answered := true, status := "answered" }
                     else e) } : SosAlert) ∧
        ((findChild st a.child).isSome = true →
          emits = [SosEmit.sosResolved a.child aid]) ∧
        (findChild st a.child = none → emits = [])) := by
  unfold markParentAnswered
  rw [ha]
  dsimp only
  constructor
  · intro hne
    rw [if_pos (bne_iff_ne.mpr hne)]
    exact ⟨_, rfl⟩
  · intro heq
    rw [if_neg (by simp [heq])]
    refine ⟨_, _, rfl, ?_, ?_, ?_⟩
    · unfold findAlert updAlert
      dsimp only
      rw [find?_keyed_upd st.alerts aid (fun x =>
        { x with status := SosAlertStatus.parentAnswered,
                 resolvedAt := some st.now, resolvedBy := some a.parent,
                 callHistory := x.callHistory.map (fun e =>
                   if e.callType == CallType.parent && e.answered == false then
                     { e with answered := true, status := "answered" }
                   else e) }) (fun _ => rfl)]
      have ha' : st.alerts.find? (fun x => x.id == aid) = some a := ha
      rw [ha']
      rfl
    · intro hsome
      obtain ⟨cd, hcd⟩ := Option.isSome_iff_exists.mp hsome
      rw [hcd]
    · intro hnone
      rw [hnone]

/-- C8 witness: on the mid-escalation alert, the parent's call succeeds and
the amended specification holds at that input. -/
theorem markParentAnswered_spec_witness :
    findAlert wTwoCallStore 60 = some wTwoCallAlert ∧
    ((wParentActor.id ≠ wTwoCallAlert.parent →
      ∃ s, markParentAnswered 60 wParentActor wTwoCallStore =
        Except.error (Err.forbidden s)) ∧
    (wParentActor.id = wTwoCallAlert.parent →
      ∃ st' emits, markParentAnswered 60 wParentActor wTwoCallStore =
          Except.ok (st', emits) ∧
        findAlert st' 60 = some (
          { wTwoCallAlert with
              status := SosAlertStatus.parentAnswered,
              resolvedAt := some wTwoCallStore.now,
              resolvedBy := some wTwoCallAlert.parent,
              callHistory := wTwoCallAlert.callHistory.map (fun e =>
                if e.callType == CallType.parent && e.answered == false then
                  { e with answered := true, status := "answered" }
                else e) } : SosAlert) ∧
        ((findChild wTwoCallStore wTwoCallAlert.child).isSome = true →
          emits = [SosEmit.sosResolved wTwoCallAlert.child 60]) ∧
        (findChild wTwoCallStore wTwoCallAlert.child = none → emits = []))) :=
  ⟨by decide,
   markParentAnswered_spec wTwoCallStore 60 wParentActor wTwoCallAlert (by decide)⟩

/-- C9 counterexample: `leaveRoom` from an unauthenticated socket is NOT
rejected with an unauthorized result — the handler has no authentication
check: it acknowledges with ok and emits a presence event to the room's
subscribers. -/
theorem onLeaveRoom_unauthenticated_not_rejected :
    wAnonClient.user = none ∧
    (onLeaveRoom wAnonClient 3 wStore).res = GwRes.okRoom 3 ∧
    (onLeaveRoom wAnonClient 3 wStore).events =
      [GwEvent.presence "anon" "left" 3] := by
  decide

/-- C9 amended: for an unauthenticated socket, `joinRoom` (with a room id),
`sendText` and `signal` are each rejected with the explicit "Unauthorized"
result, change neither the subscription membership nor the store, emit
nothing and never disconnect; `leaveRoom`, however, is unguarded: it
performs the leave, emits a presence "left" event to the room and returns
ok (still without disconnecting). -/
theorem unauthenticated_room_actions (c : SocketCl) (st : Store)
    (hanon : c.user = none) :
    (∀ rid : OId, onJoinRoom c (some rid) st =
      { client := c, store := st, events := [],
        res := GwRes.errMsg "Unauthorized", disconnected := false }) ∧
    (∀ body : GwBody, onSendText c body st =
      { client := c, store := st, events := [],
        res := GwRes.errMsg "Unauthorized", disconnected := false }) ∧
    (∀ body : SendSignalDto, onSignal c body st =
      { client := c, store := st, events := [],
        res := GwRes.errMsg "Unauthorized", disconnected := false }) ∧
    (∀ rid : OId,
      (onLeaveRoom c rid st).res = GwRes.okRoom rid ∧
      (onLeaveRoom c rid st).events = [GwEvent.presence c.sid "left" rid] ∧
      (onLeaveRoom c rid st).disconnected = false) :=
  ⟨fun _ => by unfold onJoinRoom; rw [hanon],
   fun _ => by unfold onSendText; rw [hanon],
   fun _ => by unfold onSignal; rw [hanon],
   fun _ => ⟨rfl, rfl, rfl⟩⟩

/-- C9 witness: the amended behaviour at the concrete unauthenticated
socket and the baseline store. -/
theorem unauthenticated_room_actions_witness :
    wAnonClient.user = none ∧
    ((∀ rid : OId, onJoinRoom wAnonClient (some rid) wStore =
      { client := wAnonClient, store := wStore, events := [],
        res := GwRes.errMsg "Unauthorized", disconnected := false }) ∧
    (∀ body : GwBody, onSendText wAnonClient body wStore =
      { client := wAnonClient, store := wStore, events := [],
        res := GwRes.errMsg "Unauthorized", disconnected := false }) ∧
    (∀ body : SendSignalDto, onSignal wAnonClient body wStore =
      { client := wAnonClient, store := wStore, events := [],
        res := GwRes.errMsg "Unauthorized", disconnected := false }) ∧
    (∀ rid : OId,
      (onLeaveRoom wAnonClient rid wStore).res = GwRes.okRoom rid ∧
      (onLeaveRoom wAnonClient rid wStore).events =
        [GwEvent.presence wAnonClient.sid "left" rid] ∧
      (onLeaveRoom wAnonClient rid wStore).disconnected = false)) :=
  ⟨rfl, unauthenticated_room_actions wAnonClient wStore rfl⟩

/-- A keyed, id-preserving room update commutes with looking the key up. -/
theorem find?_keyed_updRoom (l : List Room) (n : OId) (f : Room → Room)
    (hpres : ∀ r, (f r).id = r.id) :
    (l.map fun r => if r.id == n then f r else r).find? (fun r => r.id == n) =
      (l.find? (fun r => r.id == n)).map f := by
  induction l with
  | nil => rfl
  | cons x xs ih =>
    cases hx : (x.id == n) with
    | true =>
      rw [List.map_cons, if_pos hx]
      simp only [List.find?]
      rw [hpres x, hx]
      rfl
    | false =>
      rw [List.map_cons, if_neg (by simp [hx])]
      simp only [List.find?]
      rw [hx, ih]

/-- C10: room.lastMessage is updated exactly by text and audio sends and
never by signal sends — after a successful `sendText` it holds the sent
text, sender and timestamp; after a successful `sendAudio` its text is the
fixed placeholder `[Audio]`; a successful `sendSignal` leaves every room
(and every field of every room) unchanged. -/
theorem room_lastMessage_projection (st : Store) (u : Actor) :
    (∀ (dto : SendTextDto) (st' : Store) (msg : Message),
      sendText dto u st = Except.ok (st', msg) →
      ∃ room, findRoom st dto.roomId = some room ∧
        findRoom st' dto.roomId = some (
          { room with lastMessage := some (
              { text := dto.text, senderModel := dto.senderModel,
                senderId := dto.senderId, createdAt := st.now } : LastMessage) } : Room)) ∧
    (∀ (dto : SendAudioDto) (st' : Store) (msg : Message),
      sendAudio dto u st = Except.ok (st', msg) →
      ∃ room, findRoom st dto.roomId = some room ∧
        findRoom st' dto.roomId = some (
          { room with lastMessage := some (
              { text := "[Audio]", senderModel := dto.senderModel,
                senderId := dto.senderId, createdAt := st.now } : LastMessage) } : Room)) ∧
    (∀ (dto : SendSignalDto) (st' : Store) (msg : Message),
      sendSignal dto u st = Except.ok (st', msg) → st'.rooms = st.rooms) := by
  refine ⟨?_, ?_, ?_⟩
  · intro dto st' msg h
    unfold sendText at h
    split at h
    · exact absurd h (by simp)
    case _ room hroom =>
    split at h
    · exact absurd h (by simp)
    split at h
    · exact absurd h (by simp)
    rw [Except.ok.injEq] at h
    have h1 := congrArg Prod.fst h
    dsimp only at h1
    refine ⟨room, hroom, ?_⟩
    rw [← h1]
    have hroomf : st.rooms.find? (fun r => r.id == dto.roomId) = some room := hroom
    have hpa := List.find?_some hroomf
    have hid : room.id = dto.roomId := beq_iff_eq.mp hpa
    unfold findRoom updRoom
    dsimp only
    rw [← hid]
    rw [find?_keyed_updRoom st.rooms room.id (fun r =>
      { r with lastMessage := some (
          { text := dto.text, senderModel := dto.senderModel,
            senderId := dto.senderId, createdAt := st.now } : LastMessage) }) (fun _ => rfl)]
    have hroomf' : st.rooms.find? (fun r => r.id == room.id) = some room := by
      rw [hid]; exact hroomf
    rw [hroomf']
    rfl
  · intro dto st' msg h
    unfold sendAudio at h
    split at h
    · exact absurd h (by simp)
    case _ room hroom =>
    split at h
    · exact absurd h (by simp)
    split at h
    · exact absurd h (by simp)
    rw [Except.ok.injEq] at h
    have h1 := congrArg Prod.fst h
    dsimp only at h1
    refine ⟨room, hroom, ?_⟩
    rw [← h1]
    have hroomf : st.rooms.find? (fun r => r.id == dto.roomId) = some room := hroom
    have hpa := List.find?_some hroomf
    have hid : room.id = dto.roomId := beq_iff_eq.mp hpa
    unfold findRoom updRoom
    dsimp only
    rw [← hid]
    rw [find?_keyed_updRoom st.rooms room.id (fun r =>
      { r with lastMessage := some (
          { text := "[Audio]", senderModel := dto.senderModel,
            senderId := dto.senderId, createdAt := st.now } : LastMessage) }) (fun _ => rfl)]
    have hroomf' : st.rooms.find? (fun r => r.id == room.id) = some room := by
      rw [hid]; exact hroomf
    rw [hroomf']
    rfl
  · intro dto st' msg h
    unfold sendSignal at h
    split at h
    · exact absurd h (by simp)
    split at h
    · exact absurd h (by simp)
    split at h
    · exact absurd h (by simp)
    split at h
    · exact absurd h (by simp)
    rw [Except.ok.injEq] at h
    have h1 := congrArg Prod.fst h
    dsimp only at h1
    rw [← h1]

/-- C10 witness: the three concrete sends by the primary parent all succeed
on the baseline store and satisfy the projection property. -/
theorem room_lastMessage_projection_witness :
    (sendText wTextDto wParentActor wStore).toOption.isSome = true ∧
    (sendAudio wAudioDto wParentActor wStore).toOption.isSome = true ∧
    (sendSignal wSignalDto wParentActor wStore).toOption.isSome = true ∧
    ((∀ (dto : SendTextDto) (st' : Store) (msg : Message),
      sendText dto wParentActor wStore = Except.ok (st', msg) →
      ∃ room, findRoom wStore dto.roomId = some room ∧
        findRoom st' dto.roomId = some (
          { room with lastMessage := some (
              { text := dto.text, senderModel := dto.senderModel,
                senderId := dto.senderId, createdAt := wStore.now } : LastMessage) } : Room)) ∧
    (∀ (dto : SendAudioDto) (st' : Store) (msg : Message),
      sendAudio dto wParentActor wStore = Except.ok (st', msg) →
      ∃ room, findRoom wStore dto.roomId = some room ∧
        findRoom st' dto.roomId = some (
          { room with lastMessage := some (
              { text := "[Audio]", senderModel := dto.senderModel,
                senderId := dto.senderId, createdAt := wStore.now } : LastMessage) } : Room)) ∧
    (∀ (dto : SendSignalDto) (st' : Store) (msg : Message),
      sendSignal dto wParentActor wStore = Except.ok (st', msg) →
        st'.rooms = wStore.rooms)) :=
  ⟨by decide, by decide, by decide,
   room_lastMessage_projection wStore wParentActor⟩
